import Mathlib

/-!
Shallow embedding, in Lean 4, of the Doris backend meta scanner
(`be/src/vec/exec/scan/vmeta_scanner.cpp`): the remote metadata
materialization adapter that fetches a batch of variant-typed rows from the
frontend and converts them into typed, nullable-aware columns.

The embedding follows the source function by function:
`VMetaScanner::prepare`, `VMetaScanner::_get_block_impl`,
`VMetaScanner::_fill_block_with_remote_data` and
`VMetaScanner::_fetch_iceberg_metadata_batch`.  Collaborator types that live
outside the translated file (slot descriptors, thrift cells, the columnar
`Block` and `IColumn` family) are modelled from their interface as the spec
describes it; each such definition carries a doc comment saying so.
-/

namespace MetaScan

/-- Semantic type tag of a destination slot (`TPrimitiveType` in the source).
The six constructors named `TYPE_*` are exactly the cases handled by the
switch in `VMetaScanner::_fill_block_with_remote_data`; `TYPE_OTHER s`
stands for any declared type outside that supported set, carrying the text
its `debug_string()` would print (e.g. "FLOAT"). -/
inductive PrimitiveType where
  | TYPE_INT
  | TYPE_BIGINT
  | TYPE_DATETIMEV2
  | TYPE_STRING
  | TYPE_CHAR
  | TYPE_VARCHAR
  | TYPE_OTHER : String → PrimitiveType
deriving DecidableEq

/-- Text of `slot_desc->type().debug_string()` as used in the error message of
the default switch case.  Only the `TYPE_OTHER` case is ever printed by the
scanner, so the supported tags render as their plain names. -/
def PrimitiveType.debug_string : PrimitiveType → String
  | .TYPE_INT => "INT"
  | .TYPE_BIGINT => "BIGINT"
  | .TYPE_DATETIMEV2 => "DATETIMEV2"
  | .TYPE_STRING => "STRING"
  | .TYPE_CHAR => "CHAR"
  | .TYPE_VARCHAR => "VARCHAR"
  | .TYPE_OTHER s => s

/-- Modelled from the spec: one destination column descriptor (Doris
`SlotDescriptor`, declared outside the translated file) — "a semantic type
tag, a nullability flag, a name, and whether the planner requires it
materialized". -/
structure SlotDescriptor where
  col_name : String
  type : PrimitiveType
  is_nullable : Bool
  is_materialized : Bool
deriving DecidableEq

/-- Modelled from the spec: one variant-typed remote value (thrift `TCell`,
generated code outside the translated file).  The scanner reads `intVal`
into an `int64_t` for integer-32 slots, `longVal` for integer-64 and
timestamp slots, and `stringVal` for text slots; the spec describes the
integer payloads as signed 64-bit, so both integer fields are mathematical
integers standing for signed 64-bit values. -/
structure TCell where
  intVal : Int
  longVal : Int
  stringVal : String
deriving DecidableEq

/-- Modelled from the spec: one remote row (thrift `TRow`): "an ordered
sequence of RemoteValue, one per requested column, in the same order as the
destination slots". -/
structure TRow where
  column_value : List TCell
deriving DecidableEq

/-- Cell read by `_batch_data[row].column_value[col]` when the row is shorter
than the slot list (out-of-range vector access in C++); never reached on
well-formed batches, where every row has one cell per slot. -/
def defaultCell : TCell := ⟨0, 0, ""⟩

/-- Modelled from the spec: the destination column builders (`IColumn`
family, declared outside the translated file).  Exactly the shapes the
scanner casts to: `ColumnVector<Int32>`, `ColumnVector<Int64>`,
`ColumnVector<UInt64>`, `ColumnString`, and the null-tracking wrapper
`ColumnNullable` holding a nested column plus a null map.  `otherCol n`
stands for the builder of any unsupported slot type, recording only how
many values it holds (the scanner never inserts into one). -/
inductive IColumn where
  | vecInt32 : List Int → IColumn
  | vecInt64 : List Int → IColumn
  | vecUInt64 : List Nat → IColumn
  | colString : List String → IColumn
  | nullableCol : IColumn → List Bool → IColumn
  | otherCol : Nat → IColumn
deriving DecidableEq

/-- Modelled from the spec: `IColumn::size()`.  For the nullable wrapper the
column library reports the null map's length (nested column and null map
are kept in sync by every ordinary producer). -/
def IColumn.size : IColumn → Nat
  | .vecInt32 l => l.length
  | .vecInt64 l => l.length
  | .vecUInt64 l => l.length
  | .colString l => l.length
  | .nullableCol _ nm => nm.length
  | .otherCol n => n

/-- Number of data values a builder holds: length of the payload list, looking
through the nullable wrapper at the nested data column.  This is the count
of values actually inserted by the scanner. -/
def IColumn.dataSize : IColumn → Nat
  | .vecInt32 l => l.length
  | .vecInt64 l => l.length
  | .vecUInt64 l => l.length
  | .colString l => l.length
  | .nullableCol nested _ => nested.dataSize
  | .otherCol n => n

/-- Two's-complement narrowing of a signed 64-bit value to 32 bits: the
semantics of the implicit `int64_t` → `Int32` conversion performed by
`ColumnVector<Int32>::insert_value(data)` — keep the low 32 bits,
reinterpreted as a signed 32-bit value. -/
def wrapInt32 (x : Int) : Int := (x + 2 ^ 31) % 2 ^ 32 - 2 ^ 31

/-- Reinterpretation of a signed 64-bit value as unsigned 64-bit: the
semantics of `uint64_t data = ...longVal` in the `TYPE_DATETIMEV2` case. -/
def toUInt64 (x : Int) : Nat := (x % 2 ^ 64).toNat

/-- Modelled from the spec: `ColumnVector<Int32>::insert_value` after the
`reinterpret_cast` in the `TYPE_INT` case.  On a column of any other shape
the C++ cast is undefined behaviour; the model leaves such a column
unchanged (the scanner only ever passes the matching shape). -/
def insertInt32 (col : IColumn) (data : Int) : IColumn :=
  match col with
  | .vecInt32 l => .vecInt32 (l ++ [wrapInt32 data])
  | c => c

/-- Modelled from the spec: `ColumnVector<Int64>::insert_value` (the
`TYPE_BIGINT` case); mismatched shapes as in `insertInt32`. -/
def insertInt64 (col : IColumn) (data : Int) : IColumn :=
  match col with
  | .vecInt64 l => .vecInt64 (l ++ [data])
  | c => c

/-- Modelled from the spec: `ColumnVector<UInt64>::insert_value` (the
`TYPE_DATETIMEV2` case); mismatched shapes as in `insertInt32`. -/
def insertUInt64 (col : IColumn) (data : Nat) : IColumn :=
  match col with
  | .vecUInt64 l => .vecUInt64 (l ++ [data])
  | c => c

/-- Modelled from the spec: `ColumnString::insert_data(data.c_str(),
data.length())` — a length-prefixed byte copy of the text value (the
`TYPE_STRING` / `TYPE_CHAR` / `TYPE_VARCHAR` cases); mismatched shapes as in
`insertInt32`. -/
def insertString (col : IColumn) (data : String) : IColumn :=
  match col with
  | .colString l => .colString (l ++ [data])
  | c => c

/-- Modelled from the spec: `SlotDescriptor::get_empty_mutable_column` — a
freshly allocated empty builder of the slot's declared type, wrapped in a
null-tracking `ColumnNullable` (with empty null map) when the slot is
nullable. -/
def SlotDescriptor.get_empty_mutable_column (s : SlotDescriptor) : IColumn :=
  let base : IColumn :=
    match s.type with
    | .TYPE_INT => .vecInt32 []
    | .TYPE_BIGINT => .vecInt64 []
    | .TYPE_DATETIMEV2 => .vecUInt64 []
    | .TYPE_STRING => .colString []
    | .TYPE_CHAR => .colString []
    | .TYPE_VARCHAR => .colString []
    | .TYPE_OTHER _ => .otherCol 0
  if s.is_nullable then .nullableCol base [] else base

/-- Error text of the default switch case in
`_fill_block_with_remote_data`: `fmt::format("Invalid column type {} on
column: {}.", slot_desc->type().debug_string(), slot_desc->col_name())`. -/
def invalidTypeMsg (s : SlotDescriptor) : String :=
  "Invalid column type " ++ s.type.debug_string ++ " on column: " ++ s.col_name ++ "."

/-- The type switch of `_fill_block_with_remote_data` (lines 123-156) for one
cell: extract the variant field selected by the destination slot's declared
type and insert it into the target column, or fail with the internal error
of the default case.  `.ok` carries the updated column, `.error` the error
message. -/
def convertInsert (s : SlotDescriptor) (cell : TCell) (col : IColumn) : Except String IColumn :=
  match s.type with
  | .TYPE_INT => .ok (insertInt32 col cell.intVal)
  | .TYPE_BIGINT => .ok (insertInt64 col cell.longVal)
  | .TYPE_DATETIMEV2 => .ok (insertUInt64 col (toUInt64 cell.longVal))
  | .TYPE_STRING => .ok (insertString col cell.stringVal)
  | .TYPE_CHAR => .ok (insertString col cell.stringVal)
  | .TYPE_VARCHAR => .ok (insertString col cell.stringVal)
  | .TYPE_OTHER _ => .error (invalidTypeMsg s)

/-- One row-conversion unit of `_fill_block_with_remote_data` (lines
118-156): when the slot is nullable the insertion target is the nested
column of the `ColumnNullable` wrapper (`col_ptr =
&nullable_column->get_nested_column()`), and the wrapper's null map is left
untouched; otherwise the column itself is the target. -/
def fillStep (s : SlotDescriptor) (cell : TCell) (col : IColumn) : Except String IColumn :=
  if s.is_nullable then
    match col with
    | .nullableCol nested nm => (convertInsert s cell nested).map (fun n => .nullableCol n nm)
    | c => convertInsert s cell c
  else convertInsert s cell col

/-- The inner row loop of `_fill_block_with_remote_data` (`for _row_idx in
0.._batch_data.size()`) for the materialized column at position `idx`:
convert and insert the cell of each row in order; on the first failing row
return the column as it stands together with the error message. -/
def fillRows (s : SlotDescriptor) (idx : Nat) (batch : List TRow) (col : IColumn) :
    IColumn × Option String :=
  match batch with
  | [] => (col, none)
  | row :: rest =>
    match fillStep s (row.column_value.getD idx defaultCell) col with
    | .ok col1 => fillRows s idx rest col1
    | .error m => (col, some m)

/-- The outer column loop of `_fill_block_with_remote_data` (`for col_idx in
0..columns.size()`, `slot_desc = _tuple_desc->slots()[col_idx]`):
non-materialized slots are skipped (`continue`), materialized ones run the
row loop; on error the loop stops and the columns mutated so far keep their
contents.  Returns the final state of every column and the error, if any.
The call sites keep the two lists the same length; when they differ the C++
indexing is out of bounds, and the model simply stops at the shorter
list. -/
def fillColsAux (batch : List TRow) : Nat → List SlotDescriptor → List IColumn →
    List IColumn × Option String
  | _, [], cols => (cols, none)
  | _, _ :: _, [] => ([], none)
  | idx, s :: ss, c :: cs =>
    if s.is_materialized then
      match fillRows s idx batch c with
      | (c1, none) =>
        let r := fillColsAux batch (idx + 1) ss cs
        (c1 :: r.1, r.2)
      | (c1, some m) => (c1 :: cs, some m)
    else
      let r := fillColsAux batch (idx + 1) ss cs
      (c :: r.1, r.2)

/-- Scanner-local mutable state relevant to the claims: the end-of-stream
latch `_meta_eos` and the buffered remote rows `_batch_data`. -/
structure ScannerState where
  meta_eos : Bool
  batch_data : List TRow
deriving DecidableEq

/-- State established by the `VMetaScanner` constructor: `_meta_eos(false)`
and an empty `_batch_data`. -/
def initScannerState : ScannerState := ⟨false, []⟩

/-- `VMetaScanner::_fill_block_with_remote_data` (lines 108-161): run the
column loop over the buffered batch; on success latch `_meta_eos = true`
and return `Status::OK()`, on failure return the internal error with
`_meta_eos` unchanged.  Result: (final columns, final state, error). -/
def fill_block_with_remote_data (slots : List SlotDescriptor) (st : ScannerState)
    (cols : List IColumn) : List IColumn × ScannerState × Option String :=
  let r := fillColsAux st.batch_data 0 slots cols
  match r.2 with
  | none => (r.1, { st with meta_eos := true }, none)
  | some m => (r.1, st, some m)

/-- Modelled from the spec: one `ColumnWithTypeAndName` entry of a `Block` —
a column pointer (which can be null, modelled as `none`) and the column's
name; the data-type pointer carried alongside plays no role in the scanner
and is omitted. -/
structure ColumnEntry where
  column : Option IColumn
  name : String
deriving DecidableEq

/-- Modelled from the spec: the caller-supplied output `Block` — an ordered
sequence of column entries, index-aligned with the destination slot list
when non-empty. -/
structure Block where
  data : List ColumnEntry
deriving DecidableEq

/-- Modelled from the spec: `Block::mem_reuse()` — the block offers its
columns for reuse exactly when it already holds column entries. -/
def Block.mem_reuse (b : Block) : Bool := !b.data.isEmpty

/-- Modelled from the spec: `Block::rows()` — the size of the first entry
whose column pointer is set, `0` when there is none. -/
def Block.rows (b : Block) : Nat := rowsAux b.data
where
  rowsAux : List ColumnEntry → Nat
    | [] => 0
    | e :: rest =>
      match e.column with
      | some c => c.size
      | none => rowsAux rest

/-- Result of the RPC to the frontend inside
`_fetch_iceberg_metadata_batch`: a transport-level failure
(`ThriftRpcHelper::rpc` errors), a response carrying a non-success status
(`Status(result.status)`), or a successful response with its row batch
(`result.data_batch`). -/
inductive FetchResult where
  | transportError : String → FetchResult
  | remoteStatusError : String → FetchResult
  | success : List TRow → FetchResult
deriving DecidableEq

/-- Scan-range parameter relevant to the scanner:
`_scan_range.meta_scan_range.__isset.iceberg_params`. -/
structure MetaScanRange where
  has_iceberg_params : Bool
deriving DecidableEq

/-- `VMetaScanner::_fetch_iceberg_metadata_batch` (lines 163-201) restricted
to its effect on scanner state: a transport failure or a non-success remote
status is returned as a failure with `_batch_data` untouched; on success
the returned batch is moved into `_batch_data`. -/
def fetch_iceberg_metadata_batch (remote : FetchResult) (st : ScannerState) :
    ScannerState × Option String :=
  match remote with
  | .transportError m => (st, some m)
  | .remoteStatusError m => (st, some m)
  | .success rows => ({ st with batch_data := rows }, none)

/-- `VMetaScanner::prepare` (lines 44-58): when the scan range declares
iceberg parameters, invoke the fetch stage (propagating its failure);
otherwise latch `_meta_eos = true` without fetching.  The conjunct-context
cloning does not touch the modelled state. -/
def prepare (sr : MetaScanRange) (remote : FetchResult) (st : ScannerState) :
    ScannerState × Option String :=
  if sr.has_iceberg_params then fetch_iceberg_metadata_batch remote st
  else ({ st with meta_eos := true }, none)

/-- The column-builder setup loop of `_get_block_impl` (lines 76-82): for
each slot position, either detach the block's existing column for mutation
(`std::move(*block->get_by_position(i).column).mutate()`, `mem_reuse` true)
or allocate a fresh empty builder from the slot
(`get_empty_mutable_column`, `mem_reuse` false). -/
def buildColumns (memReuse : Bool) (slots : List SlotDescriptor) (block : Block) :
    List IColumn :=
  (List.range slots.length).map fun i =>
    if memReuse then ((block.data.getD i ⟨none, ""⟩).column.getD (.otherCol 0))
    else (slots.getD i ⟨"", .TYPE_OTHER "", false, false⟩).get_empty_mutable_column

/-- In the `mem_reuse` case the detached builders alias the block's columns
(`IColumn::mutate` on a uniquely owned column returns the same storage), so
every insertion is immediately visible through the block; the model makes
that aliasing explicit by writing the builders back into the block's
entries at the point of mutation. -/
def writeBack (block : Block) (cols : List IColumn) : Block :=
  ⟨(List.zipWith (fun (e : ColumnEntry) c => ⟨some c, e.name⟩) block.data cols) ++
    block.data.drop cols.length⟩

/-- The `!mem_reuse` insert loop of `_get_block_impl` (lines 95-101):
`block->insert(ColumnWithTypeAndName(std::move(columns[i]), type, name))`
for each slot in order, appending the filled builders to the block. -/
def insertAll (block : Block) (slots : List SlotDescriptor) (cols : List IColumn) : Block :=
  ⟨block.data ++ List.zipWith (fun (s : SlotDescriptor) c => ⟨some c, s.col_name⟩) slots cols⟩

/-- Everything `_get_block_impl` hands back: its `Status` (`none` = OK), the
output block, the caller's end-of-stream flag, and the scanner state. -/
structure GetBlockResult where
  status : Option String
  block : Block
  eof : Bool
  st : ScannerState
deriving DecidableEq

/-- The `do ... while (block->rows() == 0 && !(*eof))` loop of
`_get_block_impl` (lines 73-104), with explicit fuel: `none` means the C++
loop has not terminated within `fuel` iterations.  Each iteration checks
cancellation, assembles the builders, calls
`_fill_block_with_remote_data` — whose returned `Status` the source
discards — and then either breaks out on the `_meta_eos` check (setting
`*eof` when the block still has no rows) or, on the error path, installs
the builders into the block (`!mem_reuse`) and re-tests the loop
condition. -/
def getBlockLoop (slots : List SlotDescriptor) (cancelled : Bool) (memReuse : Bool) :
    Nat → ScannerState → Block → Bool → Option GetBlockResult
  | 0, _, _, _ => none
  | n + 1, st, block, eof =>
    if cancelled then some ⟨some "Cancelled", block, eof, st⟩
    else
      let cols := buildColumns memReuse slots block
      let r := fill_block_with_remote_data slots st cols
      let st1 := r.2.1
      let block1 := if memReuse then writeBack block r.1 else block
      if st1.meta_eos then
        some ⟨none, block1, if block1.rows == 0 then true else eof, st1⟩
      else
        let block2 := if memReuse then block1 else insertAll block1 slots r.1
        if block2.rows == 0 && !eof then getBlockLoop slots cancelled memReuse n st1 block2 eof
        else some ⟨none, block2, eof, st1⟩

/-- `VMetaScanner::_get_block_impl` (lines 59-106), the non-null-pointer
path: when `_meta_eos` is already latched, set the caller's eof flag and
return OK without touching the block; otherwise compute `mem_reuse` once
and run the fill loop. -/
def get_block_impl (slots : List SlotDescriptor) (cancelled : Bool) (fuel : Nat)
    (st : ScannerState) (block : Block) (eof : Bool) : Option GetBlockResult :=
  if st.meta_eos then some ⟨none, block, true, st⟩
  else getBlockLoop slots cancelled block.mem_reuse fuel st block eof

/-- Output block as the scan framework supplies it for reuse: one entry per
destination slot, already carrying an empty column of the slot's shape
(this is the `mem_reuse` configuration of `_get_block_impl`). -/
def reuseBlock (slots : List SlotDescriptor) : Block :=
  ⟨slots.map fun s => ⟨some s.get_empty_mutable_column, s.col_name⟩⟩

/-! Specification-side predicates used to state the claims. -/

/-- A destination type handled by the conversion switch (every case except
the default). -/
def supported : PrimitiveType → Bool
  | .TYPE_OTHER _ => false
  | _ => true

/-- Column shape matching a declared type tag: the shape the scanner's
`reinterpret_cast` assumes for that tag. -/
def bcompat : PrimitiveType → IColumn → Bool
  | .TYPE_INT, .vecInt32 _ => true
  | .TYPE_BIGINT, .vecInt64 _ => true
  | .TYPE_DATETIMEV2, .vecUInt64 _ => true
  | .TYPE_STRING, .colString _ => true
  | .TYPE_CHAR, .colString _ => true
  | .TYPE_VARCHAR, .colString _ => true
  | .TYPE_OTHER _, .otherCol _ => true
  | _, _ => false

/-- Column shape matching a slot: nullable slots carry the matching shape
inside a `ColumnNullable` wrapper.  This is the well-formedness invariant
the scan framework maintains for every builder it hands the scanner. -/
def compat (s : SlotDescriptor) (c : IColumn) : Bool :=
  if s.is_nullable then
    match c with
    | .nullableCol nested _ => bcompat s.type nested
    | _ => false
  else bcompat s.type c

theorem compat_get_empty (s : SlotDescriptor) :
    compat s s.get_empty_mutable_column = true := by
  cases hn : s.is_nullable <;> cases hty : s.type <;>
    simp [compat, bcompat, SlotDescriptor.get_empty_mutable_column, hn, hty]

theorem dataSize_get_empty (s : SlotDescriptor) :
    s.get_empty_mutable_column.dataSize = 0 := by
  cases hn : s.is_nullable <;> cases hty : s.type <;>
    simp [IColumn.dataSize, SlotDescriptor.get_empty_mutable_column, hn, hty]

theorem size_get_empty (s : SlotDescriptor) :
    s.get_empty_mutable_column.size = 0 := by
  cases hn : s.is_nullable <;> cases hty : s.type <;>
    simp [IColumn.size, SlotDescriptor.get_empty_mutable_column, hn, hty]

theorem convertInsert_ok (s : SlotDescriptor) (cell : TCell) (c : IColumn)
    (hs : supported s.type = true) (hc : bcompat s.type c = true) :
    ∃ c2, convertInsert s cell c = Except.ok c2 ∧ bcompat s.type c2 = true ∧
      c2.dataSize = c.dataSize + 1 := by
  cases hty : s.type <;> cases c <;>
    simp_all [supported, bcompat, convertInsert, insertInt32, insertInt64, insertUInt64,
      insertString, IColumn.dataSize]

theorem convertInsert_unsupported (s : SlotDescriptor) (cell : TCell) (c : IColumn)
    (hs : supported s.type = false) :
    convertInsert s cell c = Except.error (invalidTypeMsg s) := by
  cases hty : s.type <;> simp_all [supported, convertInsert]

theorem fillStep_ok (s : SlotDescriptor) (cell : TCell) (c : IColumn)
    (hs : supported s.type = true) (hc : compat s c = true) :
    ∃ c2, fillStep s cell c = Except.ok c2 ∧ compat s c2 = true ∧
      c2.dataSize = c.dataSize + 1 := by
  cases hn : s.is_nullable
  · simp only [compat, hn, if_neg Bool.false_ne_true] at hc
    obtain ⟨c2, h1, h2, h3⟩ := convertInsert_ok s cell c hs hc
    exact ⟨c2, by simp [fillStep, hn, h1], by simp [compat, hn, h2], h3⟩
  · cases c <;> simp only [compat, hn, if_true, reduceCtorEq] at hc
    case nullableCol nested nm =>
      obtain ⟨n2, h1, h2, h3⟩ := convertInsert_ok s cell nested hs hc
      exact ⟨.nullableCol n2 nm, by simp [fillStep, hn, h1, Except.map],
        by simp [compat, hn, h2], by simpa [IColumn.dataSize] using h3⟩

theorem fillStep_unsupported (s : SlotDescriptor) (cell : TCell) (c : IColumn)
    (hs : supported s.type = false) :
    fillStep s cell c = Except.error (invalidTypeMsg s) := by
  cases hn : s.is_nullable <;>
    cases c <;> simp [fillStep, hn, Except.map, convertInsert_unsupported s cell _ hs]

theorem fillRows_ok (s : SlotDescriptor) (idx : Nat) (batch : List TRow) (c : IColumn)
    (hs : supported s.type = true) (hc : compat s c = true) :
    ∃ c2, fillRows s idx batch c = (c2, none) ∧ compat s c2 = true ∧
      c2.dataSize = c.dataSize + batch.length := by
  induction batch generalizing c with
  | nil => exact ⟨c, rfl, hc, by simp [fillRows]⟩
  | cons row rest ih =>
    obtain ⟨c1, h1, h2, h3⟩ := fillStep_ok s (row.column_value.getD idx defaultCell) c hs hc
    obtain ⟨c2, g1, g2, g3⟩ := ih c1 h2
    exact ⟨c2, by simp only [fillRows]; rw [h1]; exact g1, g2,
      by rw [g3, h3, List.length_cons]; omega⟩

theorem fillRows_unsupported (s : SlotDescriptor) (idx : Nat) (row : TRow)
    (rest : List TRow) (c : IColumn) (hs : supported s.type = false) :
    fillRows s idx (row :: rest) c = (c, some (invalidTypeMsg s)) := by
  simp [fillRows, fillStep_unsupported s _ c hs]

theorem fillRows_nil (s : SlotDescriptor) (idx : Nat) (c : IColumn) :
    fillRows s idx [] c = (c, none) := rfl

theorem fillColsAux_nil_batch (idx : Nat) (ss : List SlotDescriptor) (cs : List IColumn) :
    fillColsAux [] idx ss cs = (cs, none) := by
  induction ss generalizing idx cs with
  | nil => rfl
  | cons s t ih =>
    cases cs with
    | nil => rfl
    | cons c ct => cases hm : s.is_materialized <;> simp [fillColsAux, fillRows, hm, ih]

theorem fillColsAux_empty_counts (batch : List TRow) (idx : Nat)
    (slots : List SlotDescriptor)
    (h : (fillColsAux batch idx slots (slots.map (·.get_empty_mutable_column))).2 = none) :
    (fillColsAux batch idx slots (slots.map (·.get_empty_mutable_column))).1.map IColumn.dataSize
      = slots.map (fun s => if s.is_materialized then batch.length else 0) := by
  induction slots generalizing idx with
  | nil => rfl
  | cons s t ih =>
    cases hm : s.is_materialized
    · simpa [fillColsAux, hm, dataSize_get_empty] using
        ih (idx + 1) (by simpa [fillColsAux, hm] using h)
    · cases hs : supported s.type
      · cases batch with
        | nil =>
          have h2 := ih (idx + 1) (by simpa [fillColsAux, hm, fillRows] using h)
          simpa [fillColsAux, hm, fillRows, dataSize_get_empty] using h2
        | cons row rest =>
          exfalso
          simp [fillColsAux, hm, fillRows_unsupported s idx row rest _ hs] at h
      · obtain ⟨c2, g1, g2, g3⟩ :=
          fillRows_ok s idx batch s.get_empty_mutable_column hs (compat_get_empty s)
        have h2 := ih (idx + 1) (by simpa [fillColsAux, hm, g1] using h)
        simp [fillColsAux, hm, g1, g3, dataSize_get_empty, h2]

theorem fill_meta_eos_mono (slots : List SlotDescriptor) (st : ScannerState)
    (cols : List IColumn) (h : st.meta_eos = true) :
    ((fill_block_with_remote_data slots st cols).2.1).meta_eos = true := by
  cases h2 : (fillColsAux st.batch_data 0 slots cols).2 <;>
    simp [fill_block_with_remote_data, h2, h]

theorem fill_error_state (slots : List SlotDescriptor) (st : ScannerState)
    (cols : List IColumn) (m : String)
    (h : (fill_block_with_remote_data slots st cols).2.2 = some m) :
    (fill_block_with_remote_data slots st cols).2.1 = st := by
  cases h2 : (fillColsAux st.batch_data 0 slots cols).2 <;>
    simp [fill_block_with_remote_data, h2] at h ⊢

theorem range_map_getD {α β : Type} (l : List α) (d : α) (f : α → β) :
    (List.range l.length).map (fun i => f (l.getD i d)) = l.map f := by
  induction l with
  | nil => rfl
  | cons a t ih =>
    have hcomp : ((fun i => f ((a :: t).getD i d)) ∘ Nat.succ) = fun i => f (t.getD i d) := by
      funext i
      simp [List.getD_cons_succ]
    rw [List.length_cons, List.range_succ_eq_map, List.map_cons, List.map_map, hcomp, ih,
      List.map_cons, List.getD_cons_zero]

theorem buildColumns_fresh (slots : List SlotDescriptor) (b : Block) :
    buildColumns false slots b = slots.map (·.get_empty_mutable_column) := by
  simp only [buildColumns, Bool.false_eq_true, if_false]
  exact range_map_getD slots _ _

theorem buildColumns_reuse (slots : List SlotDescriptor) :
    buildColumns true slots (reuseBlock slots) = slots.map (·.get_empty_mutable_column) := by
  simp only [buildColumns, if_true, reuseBlock]
  have h := range_map_getD
    (l := slots.map fun s => (⟨some s.get_empty_mutable_column, s.col_name⟩ : ColumnEntry))
    (d := ⟨none, ""⟩) (f := fun e => e.column.getD (.otherCol 0))
  rw [List.length_map] at h
  rw [h, List.map_map]
  rfl

theorem writeBack_reuse (slots : List SlotDescriptor) :
    writeBack (reuseBlock slots) (slots.map (·.get_empty_mutable_column)) =
      reuseBlock slots := by
  have hdrop : List.drop ((slots.map (·.get_empty_mutable_column)).length)
      (slots.map fun s =>
        (⟨some s.get_empty_mutable_column, s.col_name⟩ : ColumnEntry)) = [] := by
    rw [List.length_map, ← List.length_map
      (f := fun s => (⟨some s.get_empty_mutable_column, s.col_name⟩ : ColumnEntry))]
    exact List.drop_length _
  simp only [writeBack, reuseBlock, List.zipWith_map, List.zipWith_same, hdrop,
    List.append_nil]

theorem rows_reuseBlock (slots : List SlotDescriptor) :
    (reuseBlock slots).rows = 0 := by
  cases slots with
  | nil => rfl
  | cons s t => simp [Block.rows, Block.rows.rowsAux, reuseBlock, size_get_empty]

theorem fillRows_nullable (s : SlotDescriptor) (idx : Nat) (batch : List TRow)
    (nested : IColumn) (nm : List Bool) (hn : s.is_nullable = true)
    (hs : supported s.type = true) (hc : bcompat s.type nested = true) :
    ∃ n2, fillRows s idx batch (.nullableCol nested nm) = (.nullableCol n2 nm, none) ∧
      bcompat s.type n2 = true ∧ n2.dataSize = nested.dataSize + batch.length := by
  induction batch generalizing nested with
  | nil => exact ⟨nested, rfl, hc, by simp [fillRows]⟩
  | cons row rest ih =>
    obtain ⟨n1, h1, h2, h3⟩ :=
      convertInsert_ok s (row.column_value.getD idx defaultCell) nested hs hc
    obtain ⟨n2, g1, g2, g3⟩ := ih n1 h2
    have hstep : fillStep s (row.column_value.getD idx defaultCell) (.nullableCol nested nm)
        = Except.ok (.nullableCol n1 nm) := by
      simp only [fillStep, hn, if_true]
      rw [h1]
      rfl
    refine ⟨n2, ?_, g2, by rw [g3, h3, List.length_cons]; omega⟩
    simp only [fillRows]
    rw [hstep]
    exact g1

/-! The claims. -/

/-- Destination slots of the concrete scenario of C1: `id` integer-64 not
null, `name` text nullable, both materialized. -/
def c1_slots : List SlotDescriptor :=
  [⟨"id", .TYPE_BIGINT, false, true⟩, ⟨"name", .TYPE_STRING, true, true⟩]

/-- Fetched remote batch of the concrete scenario of C1:
rows `[[42, "snapshot-a"], [43, "snapshot-b"]]`. -/
def c1_batch : List TRow :=
  [⟨[⟨42, 42, ""⟩, ⟨0, 0, "snapshot-a"⟩]⟩, ⟨[⟨43, 43, ""⟩, ⟨0, 0, "snapshot-b"⟩]⟩]

/-- Output block of the concrete scenario of C1: column `id` = [42, 43],
column `name` = ["snapshot-a", "snapshot-b"]. -/
def c1_filled_block : Block :=
  ⟨[⟨some (.vecInt64 [42, 43]), "id"⟩,
    ⟨some (.nullableCol (.colString ["snapshot-a", "snapshot-b"]) []), "name"⟩]⟩

/-- C1: for destination slots [(id: integer-64, not null), (name: text,
nullable)] and fetched remote batch [[42, "snapshot-a"], [43, "snapshot-b"]]
(moved into `_batch_data` by a successful prepare), the first
get-next-batch call on the framework-supplied reusable block returns
success with the output block holding column id = [42, 43] and column
name = ["snapshot-a", "snapshot-b"], and the following call sets the
end-of-stream flag. -/
theorem c1_snapshot_scenario :
    prepare ⟨true⟩ (.success c1_batch) initScannerState = (⟨false, c1_batch⟩, none) ∧
    get_block_impl c1_slots false 1 ⟨false, c1_batch⟩ (reuseBlock c1_slots) false =
      some ⟨none, c1_filled_block, false, ⟨true, c1_batch⟩⟩ ∧
    get_block_impl c1_slots false 1 ⟨true, c1_batch⟩ c1_filled_block false =
      some ⟨none, c1_filled_block, true, ⟨true, c1_batch⟩⟩ := by
  decide

/-- Destination slots used to exhibit the discarded conversion error of C2:
a materialized integer-64 slot followed by a materialized slot of the
unsupported type FLOAT. -/
def c2_slots : List SlotDescriptor :=
  [⟨"c2a", .TYPE_BIGINT, false, true⟩, ⟨"c2f", .TYPE_OTHER "FLOAT", false, true⟩]

/-- Scanner state with one buffered row for the C2 scenario. -/
def c2_state : ScannerState := ⟨false, [⟨[⟨7, 7, ""⟩, ⟨0, 0, ""⟩]⟩]⟩

/-- C2 (code bug): `_fill_block_with_remote_data` does fail with the
internal error naming the unsupported type and column, but `_get_block_impl`
discards that `Status` (line 84 has no `RETURN_IF_ERROR`), so with the
unsupported slot in second position the call returns success and hands the
caller a block exposing the partially filled first column; with the
unsupported slot in first position the `do`-`while` loop never terminates
(here: fuel 5 exhausted without producing a result). -/
theorem c2_unsupported_type_status_discarded :
    (fill_block_with_remote_data c2_slots c2_state
        (c2_slots.map (·.get_empty_mutable_column))).2.2 =
      some "Invalid column type FLOAT on column: c2f." ∧
    get_block_impl c2_slots false 1 c2_state ⟨[]⟩ false =
      some ⟨none, ⟨[⟨some (.vecInt64 [7]), "c2a"⟩, ⟨some (.otherCol 0), "c2f"⟩]⟩, false,
        c2_state⟩ ∧
    get_block_impl [⟨"c2g", .TYPE_OTHER "FLOAT", false, true⟩] false 5 c2_state ⟨[]⟩ false =
      none := by
  decide

/-- C3: for every buffered batch and every destination slot list, after a
successful fill starting from freshly allocated builders, each materialized
destination column holds exactly R inserted values (R the number of
buffered rows) and each non-materialized column holds zero values,
regardless of the position of materialized and non-materialized slots. -/
theorem c3_fill_row_counts (slots : List SlotDescriptor) (st : ScannerState)
    (h : (fill_block_with_remote_data slots st
        (slots.map (·.get_empty_mutable_column))).2.2 = none) :
    (fill_block_with_remote_data slots st
        (slots.map (·.get_empty_mutable_column))).1.map IColumn.dataSize =
      slots.map (fun s => if s.is_materialized then st.batch_data.length else 0) := by
  cases h2 : (fillColsAux st.batch_data 0 slots (slots.map (·.get_empty_mutable_column))).2
  · have h3 := fillColsAux_empty_counts st.batch_data 0 slots h2
    simpa [fill_block_with_remote_data, h2] using h3
  · simp [fill_block_with_remote_data, h2] at h

/-- Slot list of the C3 witness: materialized integer-32, non-materialized
nullable text, materialized nullable integer-64. -/
def c3w_slots : List SlotDescriptor :=
  [⟨"a3", .TYPE_INT, false, true⟩, ⟨"b3", .TYPE_STRING, true, false⟩,
   ⟨"c3", .TYPE_BIGINT, true, true⟩]

/-- Scanner state of the C3 witness: two buffered rows. -/
def c3w_state : ScannerState :=
  ⟨false, [⟨[⟨1, 1, ""⟩, ⟨0, 0, "u"⟩, ⟨0, 10, ""⟩]⟩, ⟨[⟨2, 2, ""⟩, ⟨0, 0, "v"⟩, ⟨0, 20, ""⟩]⟩]⟩

/-- Witness for C3 at a concrete mixed slot list with two rows. -/
theorem c3_fill_row_counts_witness :
    (fill_block_with_remote_data c3w_slots c3w_state
        (c3w_slots.map (·.get_empty_mutable_column))).2.2 = none ∧
    (fill_block_with_remote_data c3w_slots c3w_state
        (c3w_slots.map (·.get_empty_mutable_column))).1.map IColumn.dataSize =
      c3w_slots.map (fun s => if s.is_materialized then c3w_state.batch_data.length else 0) :=
  ⟨by decide, c3_fill_row_counts c3w_slots c3w_state (by decide)⟩

/-- C4: for every scan range without iceberg parameters, prepare succeeds
with `_meta_eos` latched and without consulting the remote service (the
result is the same for every possible fetch outcome `remote`), and the
first subsequent get-next-batch call returns success with the caller's eof
flag set and the output block untouched. -/
theorem c4_no_metadata_kind (sr : MetaScanRange) (remote : FetchResult)
    (slots : List SlotDescriptor) (cancelled : Bool) (fuel : Nat) (b : Block) (e0 : Bool)
    (h : sr.has_iceberg_params = false) :
    prepare sr remote initScannerState = (⟨true, []⟩, none) ∧
    get_block_impl slots cancelled fuel ⟨true, []⟩ b e0 =
      some ⟨none, b, true, ⟨true, []⟩⟩ := by
  exact ⟨by simp [prepare, h, initScannerState], by simp [get_block_impl]⟩

/-- Witness for C4 at a concrete scan range, block and slot list. -/
theorem c4_no_metadata_kind_witness :
    prepare ⟨false⟩ (.success c1_batch) initScannerState = (⟨true, []⟩, none) ∧
    get_block_impl c1_slots false 3 ⟨true, []⟩ ⟨[]⟩ false =
      some ⟨none, ⟨[]⟩, true, ⟨true, []⟩⟩ :=
  c4_no_metadata_kind ⟨false⟩ (.success c1_batch) c1_slots false 3 ⟨[]⟩ false rfl

/-- C5: once `_meta_eos` is set it is never cleared: every later
get-next-batch call sets the caller's eof flag and returns success
immediately with the block and the state untouched (so no fetch or fill
work is done), and `_fill_block_with_remote_data` never resets a latched
`_meta_eos`. -/
theorem c5_eos_latched (slots : List SlotDescriptor) (cancelled : Bool) (fuel : Nat)
    (st : ScannerState) (b : Block) (e0 : Bool) (cols : List IColumn)
    (h : st.meta_eos = true) :
    get_block_impl slots cancelled fuel st b e0 = some ⟨none, b, true, st⟩ ∧
    ((fill_block_with_remote_data slots st cols).2.1).meta_eos = true :=
  ⟨by simp [get_block_impl, h], fill_meta_eos_mono slots st cols h⟩

/-- Witness for C5 at a latched concrete state. -/
theorem c5_eos_latched_witness :
    get_block_impl c1_slots true 0 ⟨true, c1_batch⟩ c1_filled_block false =
      some ⟨none, c1_filled_block, true, ⟨true, c1_batch⟩⟩ ∧
    ((fill_block_with_remote_data c1_slots ⟨true, c1_batch⟩ []).2.1).meta_eos = true :=
  c5_eos_latched c1_slots true 0 ⟨true, c1_batch⟩ c1_filled_block false [] rfl

/-- Destination slot of the C6 scenario: one materialized integer-64
column. -/
def c6_slots : List SlotDescriptor := [⟨"c6a", .TYPE_BIGINT, false, true⟩]

/-- Scanner state with one buffered row `[7]` for the C6 scenario. -/
def c6_state : ScannerState := ⟨false, [⟨[⟨7, 7, ""⟩]⟩]⟩

/-- C6 (code bug): running get-next-batch on a reused block (mem_reuse) and
on a freshly allocated block with the same buffered batch does not produce
identical block contents: the reused block comes back holding [7] with eof
unset, while with the fresh block the `_meta_eos` check breaks out of the
loop before the insert loop ever runs, so the caller gets back an empty
block with eof already set and the filled columns are dropped. -/
theorem c6_fresh_vs_reused_block_differ :
    get_block_impl c6_slots false 1 c6_state (reuseBlock c6_slots) false =
      some ⟨none, ⟨[⟨some (.vecInt64 [7]), "c6a"⟩]⟩, false, ⟨true, c6_state.batch_data⟩⟩ ∧
    get_block_impl c6_slots false 1 c6_state ⟨[]⟩ false =
      some ⟨none, ⟨[]⟩, true, ⟨true, c6_state.batch_data⟩⟩ ∧
    (⟨[⟨some (.vecInt64 [7]), "c6a"⟩]⟩ : Block) ≠ (⟨[]⟩ : Block) := by
  decide

/-- C7: for every cell and every materialized integer-32 destination slot,
the inserted value is the signed 64-bit source value narrowed to 32 bits by
two's-complement truncation — always accepted (the conversion returns
`ok` for every input, with no range check), congruent to the source modulo
2^32, and lying in the signed 32-bit range. -/
theorem c7_int_narrowing (s : SlotDescriptor) (cell : TCell) (l : List Int)
    (h : s.type = .TYPE_INT) :
    convertInsert s cell (.vecInt32 l) =
      Except.ok (.vecInt32 (l ++ [wrapInt32 cell.intVal])) ∧
    -(2 ^ 31) ≤ wrapInt32 cell.intVal ∧ wrapInt32 cell.intVal < 2 ^ 31 ∧
    (2 ^ 32 : Int) ∣ cell.intVal - wrapInt32 cell.intVal := by
  refine ⟨by simp [convertInsert, h, insertInt32], ?_, ?_, ?_⟩
  · have h2 := Int.emod_nonneg (cell.intVal + 2 ^ 31) (by norm_num : (2 : Int) ^ 32 ≠ 0)
    unfold wrapInt32
    omega
  · have h2 := Int.emod_lt_of_pos (cell.intVal + 2 ^ 31) (by norm_num : (0 : Int) < 2 ^ 32)
    unfold wrapInt32
    omega
  · refine ⟨(cell.intVal + 2 ^ 31) / 2 ^ 32, ?_⟩
    have h2 := Int.emod_def (cell.intVal + 2 ^ 31) (2 ^ 32)
    unfold wrapInt32
    omega

/-- Witness for C7 at the out-of-range source value 2^31 + 5, which is
inserted as its truncation 5 - 2^31 rather than rejected. -/
theorem c7_int_narrowing_witness :
    (convertInsert ⟨"w7", .TYPE_INT, false, true⟩ ⟨2 ^ 31 + 5, 0, ""⟩ (.vecInt32 []) =
      Except.ok (.vecInt32 ([] ++ [wrapInt32 (2 ^ 31 + 5)])) ∧
    -(2 ^ 31) ≤ wrapInt32 (2 ^ 31 + 5) ∧ wrapInt32 (2 ^ 31 + 5) < 2 ^ 31 ∧
    (2 ^ 32 : Int) ∣ 2 ^ 31 + 5 - wrapInt32 (2 ^ 31 + 5)) ∧
    wrapInt32 (2 ^ 31 + 5) = 5 - 2 ^ 31 :=
  ⟨c7_int_narrowing ⟨"w7", .TYPE_INT, false, true⟩ ⟨2 ^ 31 + 5, 0, ""⟩ [] rfl, by decide⟩

/-- C8: for every materialized nullable destination slot of supported type,
the row loop inserts each value only into the nested column of the nullable
wrapper and never appends an entry to the wrapper's null map (the null map
comes back exactly as it went in), so after filling R rows from a state
where null map and nested data were in sync, the null map has R fewer
entries than the nested data column. -/
theorem c8_nullable_nested_insert (s : SlotDescriptor) (idx : Nat) (batch : List TRow)
    (nested : IColumn) (nm : List Bool) (hn : s.is_nullable = true)
    ( _hm : s.is_materialized = true) (hs : supported s.type = true)
    (hc : bcompat s.type nested = true) :
    ∃ n2, fillRows s idx batch (.nullableCol nested nm) = (.nullableCol n2 nm, none) ∧
      n2.dataSize = nested.dataSize + batch.length ∧
      (nested.dataSize = nm.length → nm.length + batch.length = n2.dataSize) := by
  obtain ⟨n2, h1, _, h3⟩ := fillRows_nullable s idx batch nested nm hn hs hc
  exact ⟨n2, h1, h3, fun he => by omega⟩

/-- Witness for C8: a nullable text slot filled with two rows leaves the
null map empty while the nested column gains two values. -/
theorem c8_nullable_nested_insert_witness :
    ∃ n2, fillRows ⟨"w8", .TYPE_STRING, true, true⟩ 0 [⟨[⟨0, 0, "x"⟩]⟩, ⟨[⟨0, 0, "y"⟩]⟩]
        (.nullableCol (.colString []) []) = (.nullableCol n2 [], none) ∧
      n2.dataSize = (IColumn.colString []).dataSize + 2 ∧
      ((IColumn.colString []).dataSize = ([] : List Bool).length →
        ([] : List Bool).length + 2 = n2.dataSize) :=
  c8_nullable_nested_insert ⟨"w8", .TYPE_STRING, true, true⟩ 0
    [⟨[⟨0, 0, "x"⟩]⟩, ⟨[⟨0, 0, "y"⟩]⟩] (.colString []) [] rfl rfl rfl rfl

/-- Slot list of the C9 scenario: a materialized integer-64 slot before a
materialized slot of unsupported type FLOAT. -/
def c9_slots : List SlotDescriptor :=
  [⟨"a9", .TYPE_BIGINT, false, true⟩, ⟨"f9", .TYPE_OTHER "FLOAT", false, true⟩]

/-- Scanner state with one buffered row for the C9 scenario. -/
def c9_state : ScannerState := ⟨false, [⟨[⟨7, 7, ""⟩, ⟨0, 0, ""⟩]⟩]⟩

/-- C9: when the conversion stage fails on an unsupported slot type,
`_fill_block_with_remote_data` returns the error with the scanner state
unchanged (`_meta_eos` stays false, the scanner is not drained), and the
values already inserted into earlier materialized columns of the same call
are kept: concretely, the integer-64 column before the failing FLOAT slot
still holds the inserted value 7 in the returned columns. -/
theorem c9_fill_error_not_atomic (slots : List SlotDescriptor) (st : ScannerState)
    (cols : List IColumn) (m : String)
    (h : (fill_block_with_remote_data slots st cols).2.2 = some m) :
    (fill_block_with_remote_data slots st cols).2.1 = st ∧
    fill_block_with_remote_data c9_slots c9_state
        (c9_slots.map (·.get_empty_mutable_column)) =
      ([.vecInt64 [7], .otherCol 0], c9_state,
        some "Invalid column type FLOAT on column: f9.") :=
  ⟨fill_error_state slots st cols m h, by decide⟩

/-- Witness for C9 at the concrete failing fill itself. -/
theorem c9_fill_error_not_atomic_witness :
    (fill_block_with_remote_data c9_slots c9_state
        (c9_slots.map (·.get_empty_mutable_column))).2.1 = c9_state ∧
    fill_block_with_remote_data c9_slots c9_state
        (c9_slots.map (·.get_empty_mutable_column)) =
      ([.vecInt64 [7], .otherCol 0], c9_state,
        some "Invalid column type FLOAT on column: f9.") :=
  c9_fill_error_not_atomic c9_slots c9_state (c9_slots.map (·.get_empty_mutable_column))
    "Invalid column type FLOAT on column: f9." (by decide)

/-- C10: for a successful fetch whose remote response contains zero rows,
the fill performs no insertion (the builders come back unchanged), returns
success and latches end-of-stream, and the first get-next-batch call after
prepare — on an empty fresh block or on the framework's reusable block —
returns success with the caller's eof flag set and the block holding zero
rows. -/
theorem c10_empty_batch_eos (slots : List SlotDescriptor) (st : ScannerState)
    (block : Block) (fuel : Nat) (e0 : Bool)
    (h1 : st.batch_data = []) (h2 : st.meta_eos = false)
    (hb : block = ⟨[]⟩ ∨ block = reuseBlock slots) :
    fill_block_with_remote_data slots st (slots.map (·.get_empty_mutable_column)) =
      (slots.map (·.get_empty_mutable_column), ⟨true, []⟩, none) ∧
    get_block_impl slots false (fuel + 1) st block e0 =
      some ⟨none, block, true, ⟨true, []⟩⟩ := by
  obtain ⟨me, bd⟩ := st
  simp only at h1 h2
  subst h1 h2
  have hfill2 : ∀ (sl : List SlotDescriptor) (cols : List IColumn),
      fill_block_with_remote_data sl ⟨false, []⟩ cols = (cols, ⟨true, []⟩, none) :=
    fun sl cols => by simp [fill_block_with_remote_data, fillColsAux_nil_batch]
  refine ⟨hfill2 slots _, ?_⟩
  have hfresh : ∀ (sl : List SlotDescriptor),
      get_block_impl sl false (fuel + 1) ⟨false, []⟩ ⟨[]⟩ e0 =
        some ⟨none, ⟨[]⟩, true, ⟨true, []⟩⟩ := by
    intro sl
    simp [get_block_impl, getBlockLoop, Block.mem_reuse, buildColumns_fresh, hfill2,
      Block.rows, Block.rows.rowsAux]
  rcases hb with hb | hb
  · subst hb
    exact hfresh slots
  · subst hb
    cases slots with
    | nil => exact hfresh []
    | cons s t =>
      have hmem : (reuseBlock (s :: t)).mem_reuse = true := by
        simp [Block.mem_reuse, reuseBlock]
      have hwb : writeBack (reuseBlock (s :: t))
          (s.get_empty_mutable_column :: t.map (·.get_empty_mutable_column)) =
          reuseBlock (s :: t) := by
        simpa using writeBack_reuse (s :: t)
      simp [get_block_impl, getBlockLoop, hmem, buildColumns_reuse, hfill2, hwb,
        rows_reuseBlock]

/-- Slot list of the C10 witness: one materialized nullable integer-32
slot. -/
def c10w_slots : List SlotDescriptor := [⟨"w10", .TYPE_INT, true, true⟩]

/-- Witness for C10 at a concrete nullable integer-32 slot and the
framework's reusable block. -/
theorem c10_empty_batch_eos_witness :
    fill_block_with_remote_data c10w_slots ⟨false, []⟩
      (c10w_slots.map (·.get_empty_mutable_column)) =
      (c10w_slots.map (·.get_empty_mutable_column), ⟨true, []⟩, none) ∧
    get_block_impl c10w_slots false (0 + 1) ⟨false, []⟩ (reuseBlock c10w_slots) false =
      some ⟨none, reuseBlock c10w_slots, true, ⟨true, []⟩⟩ :=
  c10_empty_batch_eos c10w_slots ⟨false, []⟩ (reuseBlock c10w_slots) 0 false rfl rfl
    (Or.inr rfl)

end MetaScan
